import Mathlib

/-!
Shallow embedding of `experimental/telemetry_mini/android_go_stories.py`:
the `ProcessWatcher` class (`StartWatching`, `AssertAllAlive`), the
`BROWSERS` table and the `EnsureSingleBrowser` function.

Device effects are made explicit: a device process-status query is a
snapshot `ProcStatus`; a sequence of queries is a stream
`polls : Nat → ProcStatus` together with a query counter that each call to
`ProcessStatus()` advances.  Package-management calls of
`EnsureSingleBrowser` are recorded in an action log, with the two
`ListPackages` results passed in as the observed snapshots.
-/

namespace AndroidGoStories

/-- Failures the Python code can raise on these paths: a failed `assert`
statement (AssertionError) and a failed dict lookup (KeyError). -/
inductive Failure where
  | assertionFailure (msg : String)
  | keyError (key : String)
deriving DecidableEq, Repr

/-- Result of one `device.ProcessStatus()` query: a mapping from process
name to the list of PIDs running under that name; the source comment
states it returns an empty list when the name is not found. -/
abbrev ProcStatus := String → List Nat

/-- The `ProcessWatcher` registry state: the `_process_pid` dict, as an
association list from process name to recorded PID (keys unique). -/
structure ProcessWatcher where
  processPid : List (String × Nat)
deriving DecidableEq, Repr

/-- Argument of `StartWatching`: either a plain process-name string, or an
android-app handle.  Modelled from the spec: `telemetry_mini.AndroidApp`
is not under src/; the spec (§6 App handle, §9) says an app handle exposes
a package identifier, which is all `StartWatching` reads from it. -/
inductive ProcessRef where
  | procName (s : String)
  | app (packageName : String)
deriving DecidableEq, Repr

/-- The normalisation at the top of `StartWatching`: an app handle is
replaced by its `PACKAGE_NAME`. -/
def resolveName : ProcessRef → String
  | .procName s => s
  | .app p => p

/-- Membership test for the `_process_pid` dict (`process_name in
self._process_pid`). -/
def isWatched (w : ProcessWatcher) (n : String) : Bool :=
  w.processPid.any (fun e => e.1 = n)

/-- Modelled from the spec: `telemetry_mini.RetryOn(returns_falsy=True)`
is not under src/.  Per spec §4.1 it repeatedly invokes the query, with a
bounded number of attempts, until the result is non-falsy, returning the
first truthy result; per §4.2 an exhausted budget reaches the caller's
emptiness assertion, so on exhaustion the final (falsy) result is returned
to the caller, who classifies it.  `budget` is the number of retries after
the first attempt; `k` is the query counter, advanced once per attempt. -/
def retryPoll (polls : Nat → ProcStatus) (pname : String) :
    Nat → Nat → List Nat × Nat
  | 0, k => (polls k pname, k + 1)
  | n + 1, k =>
      let r := polls k pname
      if r = [] then retryPoll polls pname n (k + 1) else (r, k + 1)

/-- The body of `ProcessWatcher.StartWatching`: resolve the name, assert
it is not already registered, poll for its PID list with retry, assert the
list is non-empty and has exactly one element, then record the PID.
Returns the new registry (or the failure) and the advanced query
counter. -/
def StartWatching (budget : Nat) (polls : Nat → ProcStatus) (k : Nat)
    (w : ProcessWatcher) (ref : ProcessRef) :
    Except Failure ProcessWatcher × Nat :=
  let pname := resolveName ref
  if isWatched w pname then
    (.error (.assertionFailure ("already watching " ++ pname)), k)
  else
    let pr := retryPoll polls pname budget k
    match pr.1 with
    | [] => (.error (.assertionFailure ("PID for " ++ pname ++ " not found")), pr.2)
    | [pid] => (.ok ⟨w.processPid ++ [(pname, pid)]⟩, pr.2)
    | _ => (.error (.assertionFailure ("Single PID for " ++ pname ++ " expected")), pr.2)

/-- Classification used inside `AssertAllAlive`'s loop: died when the new
PID list is empty, restarted when it is non-empty but not exactly the
one-element list of the recorded PID, alive otherwise. -/
inductive AliveStatus where
  | died
  | restarted
  | alive
deriving DecidableEq, Repr

/-- One iteration of the `AssertAllAlive` loop for a registered entry. -/
def classify (newPids : List Nat) (oldPid : Nat) : AliveStatus :=
  if newPids = [] then .died
  else if newPids ≠ [oldPid] then .restarted
  else .alive

/-- The body of `ProcessWatcher.AssertAllAlive` after the single
`ProcessStatus()` call: every registered entry is checked against the one
snapshot; the final `assert all_alive` raises when any entry died or
restarted. -/
def AssertAllAliveCore (status : ProcStatus) (w : ProcessWatcher) :
    Except Failure Unit :=
  if w.processPid.all (fun e => decide (classify (status e.1) e.2 = AliveStatus.alive)) then
    .ok ()
  else
    .error (.assertionFailure "Some watched processes died or got restarted")

/-- `ProcessWatcher.AssertAllAlive` with the query counter made explicit:
it performs exactly one `ProcessStatus()` query (snapshot `polls k`) and
checks all registered entries against it. -/
def AssertAllAlive (polls : Nat → ProcStatus) (k : Nat) (w : ProcessWatcher) :
    Except Failure Unit × Nat :=
  (AssertAllAliveCore (polls k) w, k + 1)

/-- A browser app class, identified by its package name.  Modelled from
the spec: the `telemetry_mini` app classes are not under src/; per the
spec (§3 BrowserDescriptor, §6 App handle) each variant carries a distinct
package-identifier string. -/
structure BrowserClass where
  packageName : String
deriving DecidableEq, Repr

/-- Modelled from the spec: `telemetry_mini.ChromeApp`'s package id. -/
def ChromeApp : BrowserClass := ⟨"com.android.chrome"⟩

/-- Modelled from the spec: `telemetry_mini.ChromiumApp`'s package id. -/
def ChromiumApp : BrowserClass := ⟨"org.chromium.chrome"⟩

/-- Modelled from the spec: `telemetry_mini.SystemChromeApp`'s package
id. -/
def SystemChromeApp : BrowserClass := ⟨"com.google.android.apps.chrome"⟩

/-- The `BROWSERS` dict: browser-variant name to app class. -/
def BROWSERS : List (String × BrowserClass) :=
  [("android-chrome", ChromeApp),
   ("android-chromium", ChromiumApp),
   ("android-system-chrome", SystemChromeApp)]

/-- The lookup `BROWSERS[browser_name]` at the top of
`EnsureSingleBrowser`: a missing key raises KeyError. -/
def lookupBrowser (browser_name : String) : Except Failure BrowserClass :=
  match BROWSERS.lookup browser_name with
  | some b => .ok b
  | none => .error (.keyError browser_name)

/-- Device operations `EnsureSingleBrowser` invokes, recorded in order. -/
inductive DeviceAction where
  | listPackages
  | install (pkg : String)
  | uninstall (pkg : String)
deriving DecidableEq, Repr

/-- The body of `EnsureSingleBrowser`: look up the browser class, query
the enabled chrome-family packages (`avail1`), install the desired browser
when forced or absent, uninstall every other known variant enabled in the
initial query, re-query (`avail2`), assert the desired package is present,
remove it (Python `list.remove`, first occurrence) and assert nothing
remains.  Returns the browser handle (or the failure) and the log of
device actions performed. -/
def EnsureSingleBrowser (avail1 avail2 : List String) (browser_name : String)
    (force_install : Bool) : Except Failure BrowserClass × List DeviceAction :=
  match lookupBrowser browser_name with
  | .error e => (.error e, [])
  | .ok browser =>
    let installActs :=
      if force_install || !(avail1.contains browser.packageName) then
        [DeviceAction.install browser.packageName]
      else []
    let uninstallActs :=
      (BROWSERS.map Prod.snd).filterMap (fun other =>
        if other.packageName != browser.packageName &&
            avail1.contains other.packageName then
          some (DeviceAction.uninstall other.packageName)
        else none)
    let acts := DeviceAction.listPackages ::
      (installActs ++ uninstallActs ++ [DeviceAction.listPackages])
    if avail2.contains browser.packageName then
      if avail2.erase browser.packageName = [] then
        (.ok browser, acts)
      else
        (.error (.assertionFailure "Other browsers may intefere with the test"), acts)
    else
      (.error (.assertionFailure ("Unable to make " ++ browser.packageName ++ " available")), acts)

end AndroidGoStories

namespace AndroidGoStories

/-! Helper lemmas shared by the claim theorems. -/

/-- Two Boolean predicates agreeing on every element of a list give the
same `List.all` value. -/
lemma all_congr_aux {α : Type} (l : List α) (f g : α → Bool)
    (h : ∀ e ∈ l, f e = g e) : l.all f = l.all g := by
  induction l with
  | nil => rfl
  | cons a t ih =>
      simp only [List.all_cons, h a (List.mem_cons_self a t)]
      rw [ih (fun e he => h e (List.mem_cons_of_mem a he))]

/-- A successful `BROWSERS` lookup comes from one of the three entries. -/
lemma lookupBrowser_cases (n : String) (b : BrowserClass)
    (h : lookupBrowser n = .ok b) :
    (n = "android-chrome" ∧ b = ChromeApp) ∨
    (n = "android-chromium" ∧ b = ChromiumApp) ∨
    (n = "android-system-chrome" ∧ b = SystemChromeApp) := by
  by_cases h1 : n = "android-chrome"
  · subst h1
    simp only [show lookupBrowser "android-chrome" = .ok ChromeApp from rfl,
      Except.ok.injEq] at h
    exact Or.inl ⟨rfl, h.symm⟩
  by_cases h2 : n = "android-chromium"
  · subst h2
    simp only [show lookupBrowser "android-chromium" = .ok ChromiumApp from rfl,
      Except.ok.injEq] at h
    exact Or.inr (Or.inl ⟨rfl, h.symm⟩)
  by_cases h3 : n = "android-system-chrome"
  · subst h3
    simp only [show lookupBrowser "android-system-chrome" = .ok SystemChromeApp from rfl,
      Except.ok.injEq] at h
    exact Or.inr (Or.inr ⟨rfl, h.symm⟩)
  · exfalso
    have e1 : (n == "android-chrome") = false := beq_eq_false_iff_ne.mpr h1
    have e2 : (n == "android-chromium") = false := beq_eq_false_iff_ne.mpr h2
    have e3 : (n == "android-system-chrome") = false := beq_eq_false_iff_ne.mpr h3
    simp [lookupBrowser, BROWSERS, List.lookup, e1, e2, e3] at h

/-- When every poll is empty the retry loop consumes its whole budget and
returns the empty list. -/
lemma retryPoll_all_empty (polls : Nat → ProcStatus) (pname : String)
    (h : ∀ i, polls i pname = []) :
    ∀ budget k, retryPoll polls pname budget k = ([], k + budget + 1) := by
  intro budget
  induction budget with
  | zero => intro k; simp [retryPoll, h]
  | succ n ih =>
      intro k
      have step : retryPoll polls pname (n + 1) k = retryPoll polls pname n (k + 1) := by
        simp [retryPoll, h]
      rw [step, ih (k + 1)]
      rw [show k + 1 + n + 1 = k + (n + 1) + 1 from by omega]

/-- The retry loop returns the first non-empty poll result when one
occurs within the budget. -/
lemma retryPoll_first_nonempty (polls : Nat → ProcStatus) (pname : String) :
    ∀ budget j k, j ≤ budget →
      (∀ i, i < j → polls (k + i) pname = []) →
      polls (k + j) pname ≠ [] →
      retryPoll polls pname budget k = (polls (k + j) pname, k + j + 1) := by
  intro budget
  induction budget with
  | zero =>
      intro j k hj _ _
      interval_cases j
      simp [retryPoll]
  | succ n ih =>
      intro j k hj hemp hne
      match j with
      | 0 =>
          simp only [Nat.add_zero] at hne
          simp [retryPoll, hne]
      | m + 1 =>
          have h0 : polls k pname = [] := by
            simpa using hemp 0 (Nat.succ_pos m)
          have step : retryPoll polls pname (n + 1) k = retryPoll polls pname n (k + 1) := by
            simp [retryPoll, h0]
          rw [step, ih m (k + 1) (Nat.le_of_succ_le_succ hj)
            (fun i hi => by
              simpa [Nat.add_assoc, Nat.add_comm 1 i] using hemp (i + 1) (Nat.succ_lt_succ hi))
            (by
              rw [show k + 1 + m = k + (m + 1) from by omega]
              exact hne)]
          rw [show k + 1 + m = k + (m + 1) from by omega]

/-- The action log of `EnsureSingleBrowser` after a successful lookup:
initial package query, conditional install, the uninstall pass, final
package query. -/
lemma ensure_acts (browser_name : String) (b : BrowserClass)
    (avail1 avail2 : List String) (force_install : Bool)
    (hb : lookupBrowser browser_name = .ok b) :
    (EnsureSingleBrowser avail1 avail2 browser_name force_install).2 =
      DeviceAction.listPackages ::
        ((if force_install || !(avail1.contains b.packageName) then
            [DeviceAction.install b.packageName] else []) ++
         (BROWSERS.map Prod.snd).filterMap (fun other =>
            if other.packageName != b.packageName &&
                avail1.contains other.packageName then
              some (DeviceAction.uninstall other.packageName)
            else none) ++
         [DeviceAction.listPackages]) := by
  simp only [EnsureSingleBrowser, hb]
  split
  · split <;> rfl
  · rfl

/-- The result of `EnsureSingleBrowser` after a successful lookup is
decided entirely by the final package query. -/
lemma ensure_result (browser_name : String) (b : BrowserClass)
    (avail1 avail2 : List String) (force_install : Bool)
    (hb : lookupBrowser browser_name = .ok b) :
    (EnsureSingleBrowser avail1 avail2 browser_name force_install).1 =
      if avail2.contains b.packageName then
        (if avail2.erase b.packageName = [] then .ok b
         else .error (.assertionFailure "Other browsers may intefere with the test"))
      else
        .error (.assertionFailure ("Unable to make " ++ b.packageName ++ " available")) := by
  simp only [EnsureSingleBrowser, hb]
  split
  · split <;> rfl
  · rfl

/-- An uninstall action is logged exactly for a known browser variant
whose package was enabled in the initial query and differs from the
desired browser's package. -/
lemma uninstall_mem_acts (browser_name : String) (b : BrowserClass)
    (avail1 avail2 : List String) (force_install : Bool) (p : String)
    (hb : lookupBrowser browser_name = .ok b) :
    DeviceAction.uninstall p ∈
        (EnsureSingleBrowser avail1 avail2 browser_name force_install).2 ↔
      (∃ c ∈ BROWSERS, c.2.packageName = p) ∧ p ∈ avail1 ∧ p ≠ b.packageName := by
  rw [ensure_acts browser_name b avail1 avail2 force_install hb]
  constructor
  · intro h
    rcases List.mem_cons.mp h with h | h
    · exact absurd h (by simp)
    rcases List.mem_append.mp h with h | h
    · rcases List.mem_append.mp h with h | h
      · exfalso
        revert h
        split <;> intro h <;> simp at h
      · rcases List.mem_filterMap.mp h with ⟨other, hother, hsome⟩
        revert hsome
        split
        · rename_i hcond
          intro hsome
          have hpk : other.packageName = p :=
            DeviceAction.uninstall.inj (Option.some.inj hsome)
          simp only [Bool.and_eq_true, bne_iff_ne, ne_eq] at hcond
          obtain ⟨hne, hmem⟩ := hcond
          subst hpk
          refine ⟨?_, by simpa using hmem, hne⟩
          rcases List.mem_map.mp hother with ⟨c, hc, rfl⟩
          exact ⟨c, hc, rfl⟩
        · intro hsome
          exact absurd hsome (by simp)
    · exact absurd h (by simp)
  · rintro ⟨⟨c, hc, rfl⟩, hmem, hne⟩
    apply List.mem_cons_of_mem
    apply List.mem_append.mpr
    refine Or.inl (List.mem_append.mpr (Or.inr ?_))
    apply List.mem_filterMap.mpr
    refine ⟨c.2, List.mem_map_of_mem Prod.snd hc, ?_⟩
    rw [if_pos]
    rw [Bool.and_eq_true, bne_iff_ne]
    exact ⟨hne, by simpa using hmem⟩

end AndroidGoStories

namespace AndroidGoStories

/-- C1: `AssertAllAlive` checks exactly the registered process names and
no others: against one fresh snapshot each registered entry is classified
died when the fresh PID list is empty, restarted when it is non-empty but
not exactly the one-element list of the recorded PID, and alive when it
equals exactly that list; the call raises AssertionFailure if and only if
at least one registered entry is classified died or restarted, and the
snapshot's values at never-registered names cannot change the outcome. -/
theorem assertAllAlive_checks_registered_only
    (w : ProcessWatcher) (status status2 : ProcStatus) (ps : List Nat) (pid : Nat)
    (hagree : ∀ e ∈ w.processPid, status e.1 = status2 e.1) :
    ((∃ msg, AssertAllAliveCore status w = .error (.assertionFailure msg)) ↔
        ∃ e ∈ w.processPid, classify (status e.1) e.2 ≠ AliveStatus.alive) ∧
    (classify ps pid = AliveStatus.died ↔ ps = []) ∧
    (classify ps pid = AliveStatus.restarted ↔ ps ≠ [] ∧ ps ≠ [pid]) ∧
    (classify ps pid = AliveStatus.alive ↔ ps = [pid]) ∧
    AssertAllAliveCore status w = AssertAllAliveCore status2 w := by
  refine ⟨?_, ?_, ?_, ?_, ?_⟩
  · unfold AssertAllAliveCore
    by_cases h : w.processPid.all
        (fun e => decide (classify (status e.1) e.2 = AliveStatus.alive)) = true
    · rw [if_pos h]
      simp only [List.all_eq_true, decide_eq_true_eq] at h
      constructor
      · rintro ⟨msg, hmsg⟩; exact absurd hmsg (by simp)
      · rintro ⟨e, he, hne⟩; exact absurd (h e he) hne
    · rw [if_neg h]
      simp only [List.all_eq_true, decide_eq_true_eq] at h
      push_neg at h
      constructor
      · rintro -; exact h
      · rintro -; exact ⟨_, rfl⟩
  · by_cases h1 : ps = [] <;> by_cases h2 : ps = [pid] <;> simp_all [classify]
  · by_cases h1 : ps = [] <;> by_cases h2 : ps = [pid] <;> simp_all [classify]
  · by_cases h1 : ps = [] <;> by_cases h2 : ps = [pid] <;> simp_all [classify]
  · unfold AssertAllAliveCore
    rw [all_congr_aux _ _ (fun e => decide (classify (status2 e.1) e.2 = AliveStatus.alive))
      (fun e he => by rw [hagree e he])]

/-- Witness for C1: with one registered entry ("P", 100), a snapshot that
reports [100] for "P", and a second snapshot agreeing on "P" but differing
elsewhere, the outcomes coincide. -/
theorem assertAllAlive_checks_registered_only_witness :
    AssertAllAliveCore (fun n => if n = "P" then [100] else []) ⟨[("P", 100)]⟩ =
      AssertAllAliveCore (fun n => if n = "P" then [100] else [5]) ⟨[("P", 100)]⟩ :=
  (assertAllAlive_checks_registered_only ⟨[("P", 100)]⟩
    (fun n => if n = "P" then [100] else [])
    (fun n => if n = "P" then [100] else [5]) [100, 200] 100
    (by intro e he; simp only [List.mem_singleton] at he; subst he; simp)).2.2.2.2

/-- C2: given competing variants enabled (`avail1` holds exactly the other
two variants' packages) and the desired variant absent, `EnsureSingleBrowser`
logs an install of the desired package and an uninstall of each competing
package, and the re-queried state `avail2` decides the outcome: the call
returns the handle of the desired browser exactly when the desired package
is present and nothing else remains after removing it, and otherwise
raises AssertionFailure. -/
theorem ensureSingleBrowser_converges (browser_name : String) (b : BrowserClass)
    (avail1 avail2 : List String)
    (hb : lookupBrowser browser_name = .ok b)
    (ha : avail1 = (BROWSERS.map (fun e => e.2.packageName)).filter
      (fun p => !(p == b.packageName))) :
    (DeviceAction.install b.packageName ∈
      (EnsureSingleBrowser avail1 avail2 browser_name false).2) ∧
    (∀ p ∈ avail1, DeviceAction.uninstall p ∈
      (EnsureSingleBrowser avail1 avail2 browser_name false).2) ∧
    ((EnsureSingleBrowser avail1 avail2 browser_name false).1 = .ok b ↔
      b.packageName ∈ avail2 ∧ avail2.erase b.packageName = []) ∧
    (¬(b.packageName ∈ avail2 ∧ avail2.erase b.packageName = []) →
      ∃ msg, (EnsureSingleBrowser avail1 avail2 browser_name false).1 =
        .error (.assertionFailure msg)) := by
  have hnotmem : avail1.contains b.packageName = false := by
    subst ha
    simp [List.mem_filter]
  refine ⟨?_, ?_, ?_, ?_⟩
  · rw [ensure_acts browser_name b avail1 avail2 false hb]
    have hnm : b.packageName ∉ avail1 := by simpa using hnotmem
    simp [hnm]
  · intro p hp
    rw [ensure_acts browser_name b avail1 avail2 false hb]
    have hp2 := hp
    rw [ha] at hp2
    simp only [List.mem_filter, List.mem_map] at hp2
    obtain ⟨⟨other, hother, hpe⟩, hpne⟩ := hp2
    simp only [List.mem_cons, List.mem_append, List.mem_filterMap]
    refine Or.inr (Or.inl (Or.inr ⟨other.2, List.mem_map_of_mem Prod.snd hother, ?_⟩))
    have c1 : (other.2.packageName != b.packageName) = true := by
      rw [hpe]; simpa [bne] using hpne
    have c2 : avail1.contains other.2.packageName = true := by
      rw [hpe]; simpa using hp
    rw [if_pos (by rw [c1, c2]; rfl)]
    rw [hpe]
  · rw [ensure_result browser_name b avail1 avail2 false hb]
    by_cases hm : b.packageName ∈ avail2
    · have hc : avail2.contains b.packageName = true := by simpa using hm
      rw [if_pos hc]
      by_cases he : avail2.erase b.packageName = []
      · rw [if_pos he]; simp [hm, he]
      · rw [if_neg he]; simp [hm, he]
    · have hc : ¬(avail2.contains b.packageName = true) := by simpa using hm
      rw [if_neg hc]; simp [hm]
  · rw [ensure_result browser_name b avail1 avail2 false hb]
    intro hno
    by_cases hm : b.packageName ∈ avail2
    · have hc : avail2.contains b.packageName = true := by simpa using hm
      rw [if_pos hc]
      by_cases he : avail2.erase b.packageName = []
      · exact absurd ⟨hm, he⟩ hno
      · rw [if_neg he]; exact ⟨_, rfl⟩
    · have hc : ¬(avail2.contains b.packageName = true) := by simpa using hm
      rw [if_neg hc]; exact ⟨_, rfl⟩

/-- Witness for C2: desiring android-chrome on a device where the other
two variants are enabled, with the re-query showing only the chrome
package, the call succeeds with the chrome handle. -/
theorem ensureSingleBrowser_converges_witness :
    (EnsureSingleBrowser
        ((BROWSERS.map (fun e => e.2.packageName)).filter
          (fun p => !(p == ChromeApp.packageName)))
        ["com.android.chrome"] "android-chrome" false).1 = .ok ChromeApp :=
  ((ensureSingleBrowser_converges "android-chrome" ChromeApp _
      ["com.android.chrome"] rfl rfl).2.2.1).mpr
    ⟨by simp [ChromeApp], by simp [ChromeApp]⟩

end AndroidGoStories

namespace AndroidGoStories

/-- C3: for a name not yet registered whose device PID list is empty on
every poll, `StartWatching` exhausts the whole retry budget and raises
AssertionFailure (the PID-not-found assertion), not any other kind of
failure. -/
theorem startWatching_retry_exhausted_assertion (budget k : Nat)
    (polls : Nat → ProcStatus) (w : ProcessWatcher) (ref : ProcessRef)
    (hw : isWatched w (resolveName ref) = false)
    (h : ∀ i, polls i (resolveName ref) = []) :
    StartWatching budget polls k w ref =
      (.error (.assertionFailure ("PID for " ++ resolveName ref ++ " not found")),
        k + budget + 1) := by
  simp [StartWatching, hw, retryPoll_all_empty polls _ h]

/-- Witness for C3: an always-empty device with a fresh registry makes
`StartWatching` fail with the PID-not-found assertion after the budget. -/
theorem startWatching_retry_exhausted_assertion_witness :
    StartWatching 2 (fun _ _ => []) 0 ⟨[]⟩ (.procName "P") =
      (.error (.assertionFailure ("PID for " ++ "P" ++ " not found")), 0 + 2 + 1) :=
  startWatching_retry_exhausted_assertion 2 0 (fun _ _ => []) ⟨[]⟩ (.procName "P")
    rfl (fun _ => rfl)

/-- C4: registering a name already present in the registry raises
AssertionFailure immediately, for every retry budget and every device
behaviour, without performing any device process query (the query counter
is unchanged). -/
theorem startWatching_duplicate_assertion (budget k : Nat)
    (polls : Nat → ProcStatus) (w : ProcessWatcher) (ref : ProcessRef)
    (h : isWatched w (resolveName ref) = true) :
    StartWatching budget polls k w ref =
      (.error (.assertionFailure ("already watching " ++ resolveName ref)), k) := by
  simp [StartWatching, h]

/-- Witness for C4: re-registering "P" (recorded PID 7) fails with the
duplicate assertion even though the device reports it alive, and the
query counter stays put. -/
theorem startWatching_duplicate_assertion_witness :
    StartWatching 5 (fun _ _ => [7]) 3 ⟨[("P", 7)]⟩ (.procName "P") =
      (.error (.assertionFailure ("already watching " ++ "P")), 3) :=
  startWatching_duplicate_assertion 5 3 (fun _ _ => [7]) ⟨[("P", 7)]⟩
    (.procName "P") rfl

/-- C5: when the first non-empty PID list obtained within the retry
budget has two or more PIDs, `StartWatching` raises the single-PID
assertion; when it is exactly one PID, `StartWatching` succeeds and
records that PID for the name. -/
theorem startWatching_first_nonempty_classification (budget k j : Nat)
    (polls : Nat → ProcStatus) (w : ProcessWatcher) (ref : ProcessRef)
    (ps : List Nat)
    (hw : isWatched w (resolveName ref) = false)
    (hj : j ≤ budget)
    (hemp : ∀ i, i < j → polls (k + i) (resolveName ref) = [])
    (hps : polls (k + j) (resolveName ref) = ps)
    (hne : ps ≠ []) :
    (2 ≤ ps.length →
      (StartWatching budget polls k w ref).1 =
        .error (.assertionFailure ("Single PID for " ++ resolveName ref ++ " expected"))) ∧
    (∀ pid, ps = [pid] →
      StartWatching budget polls k w ref =
        (.ok ⟨w.processPid ++ [(resolveName ref, pid)]⟩, k + j + 1)) := by
  have hr : retryPoll polls (resolveName ref) budget k = (ps, k + j + 1) := by
    rw [retryPoll_first_nonempty polls _ budget j k hj hemp (hps ▸ hne), hps]
  constructor
  · intro hlen
    match ps, hlen with
    | p :: q :: rest, _ =>
        simp [StartWatching, hw, hr]
  · intro pid hpid
    subst hpid
    simp [StartWatching, hw, hr]

/-- Witness for C5: the first poll is empty and the second returns
exactly [42], so watching "P" succeeds and records PID 42. -/
theorem startWatching_first_nonempty_classification_witness :
    StartWatching 3 (fun i _ => if i = 0 then [] else [42]) 0 ⟨[]⟩ (.procName "P") =
      (.ok ⟨[] ++ [("P", 42)]⟩, 0 + 1 + 1) :=
  (startWatching_first_nonempty_classification 3 0 1
      (fun i _ => if i = 0 then [] else [42]) ⟨[]⟩ (.procName "P") [42]
      rfl (by omega)
      (by intro i hi; have h0 : i = 0 := Nat.lt_one_iff.mp hi; subst h0; simp)
      rfl (by simp)).2 42 rfl

end AndroidGoStories

namespace AndroidGoStories

/-- C6: with force_install set, `EnsureSingleBrowser` logs the install of
the desired package between the initial package query and the final
verification re-query, for every device state, including when the desired
package is already enabled. -/
theorem ensureSingleBrowser_forceInstall_installs (browser_name : String)
    (b : BrowserClass) (avail1 avail2 : List String)
    (hb : lookupBrowser browser_name = .ok b) :
    ∃ rest : List DeviceAction,
      (EnsureSingleBrowser avail1 avail2 browser_name true).2 =
        DeviceAction.listPackages :: DeviceAction.install b.packageName ::
          (rest ++ [DeviceAction.listPackages]) := by
  rw [ensure_acts browser_name b avail1 avail2 true hb]
  refine ⟨(BROWSERS.map Prod.snd).filterMap (fun other =>
      if other.packageName != b.packageName &&
          avail1.contains other.packageName then
        some (DeviceAction.uninstall other.packageName)
      else none), ?_⟩
  simp

/-- Witness for C6: android-chrome already enabled and force_install set,
the install action is still logged before the final re-query. -/
theorem ensureSingleBrowser_forceInstall_installs_witness :
    ∃ rest : List DeviceAction,
      (EnsureSingleBrowser ["com.android.chrome"] ["com.android.chrome"]
          "android-chrome" true).2 =
        DeviceAction.listPackages :: DeviceAction.install ChromeApp.packageName ::
          (rest ++ [DeviceAction.listPackages]) :=
  ensureSingleBrowser_forceInstall_installs "android-chrome" ChromeApp
    ["com.android.chrome"] ["com.android.chrome"] rfl

/-- C7: `AssertAllAlive` performs exactly one device process-status query
(the counter advances by one), its outcome is that of checking every
registered entry against that single snapshot, snapshots at other query
indices are irrelevant, and (unlike `StartWatching`) no retry occurs;
`StartWatching` by contrast can consume more than one query. -/
theorem assertAllAlive_single_query (polls : Nat → ProcStatus) (k : Nat)
    (w : ProcessWatcher) :
    (AssertAllAlive polls k w).2 = k + 1 ∧
    (AssertAllAlive polls k w).1 = AssertAllAliveCore (polls k) w ∧
    (∀ polls2 : Nat → ProcStatus, polls2 k = polls k →
      AssertAllAlive polls2 k w = AssertAllAlive polls k w) ∧
    (∃ (budget k2 : Nat) (polls2 : Nat → ProcStatus) (w2 : ProcessWatcher)
        (ref : ProcessRef), k2 + 2 ≤ (StartWatching budget polls2 k2 w2 ref).2) := by
  refine ⟨rfl, rfl, ?_, ?_⟩
  · intro polls2 h
    simp [AssertAllAlive, h]
  · exact ⟨1, 0, fun _ _ => [], ⟨[]⟩, .procName "x", by decide⟩

/-- Witness for C7: a concrete call advances the query counter by exactly
one. -/
theorem assertAllAlive_single_query_witness :
    (AssertAllAlive (fun _ _ => []) 5 ⟨[("P", 9)]⟩).2 = 5 + 1 :=
  (assertAllAlive_single_query (fun _ _ => []) 5 ⟨[("P", 9)]⟩).1

/-- C8: `StartWatching` is atomic: every call either fails, leaving the
caller's registry value untouched, or succeeds returning the old registry
extended with exactly the one new entry for the resolved name. -/
theorem startWatching_atomic_on_failure (budget k : Nat)
    (polls : Nat → ProcStatus) (w : ProcessWatcher) (ref : ProcessRef) :
    (∃ e, (StartWatching budget polls k w ref).1 = .error e) ∨
    (∃ pid, (StartWatching budget polls k w ref).1 =
      .ok ⟨w.processPid ++ [(resolveName ref, pid)]⟩) := by
  unfold StartWatching
  by_cases h : isWatched w (resolveName ref)
  · simp [h]
  · simp only [h, Bool.false_eq_true, if_false]
    rcases hr : (retryPoll polls (resolveName ref) budget k).1 with _ | ⟨p, _ | ⟨q, rest⟩⟩
    · exact Or.inl ⟨_, rfl⟩
    · exact Or.inr ⟨p, rfl⟩
    · exact Or.inl ⟨_, rfl⟩

/-- C10: a browser name outside the three BROWSERS keys makes
`EnsureSingleBrowser` fail with a KeyError (not an AssertionFailure) and
an empty action log: no device query, install or uninstall happens. -/
theorem ensureSingleBrowser_unknown_variant_keyError (browser_name : String)
    (avail1 avail2 : List String) (force_install : Bool)
    (h1 : browser_name ≠ "android-chrome")
    (h2 : browser_name ≠ "android-chromium")
    (h3 : browser_name ≠ "android-system-chrome") :
    EnsureSingleBrowser avail1 avail2 browser_name force_install =
      (.error (.keyError browser_name), []) := by
  have e1 : (browser_name == "android-chrome") = false := beq_eq_false_iff_ne.mpr h1
  have e2 : (browser_name == "android-chromium") = false := beq_eq_false_iff_ne.mpr h2
  have e3 : (browser_name == "android-system-chrome") = false := beq_eq_false_iff_ne.mpr h3
  simp [EnsureSingleBrowser, lookupBrowser, BROWSERS, List.lookup, e1, e2, e3]

/-- Witness for C10: asking for firefox fails with KeyError before any
device action. -/
theorem ensureSingleBrowser_unknown_variant_keyError_witness :
    EnsureSingleBrowser ["com.android.chrome"] [] "firefox" true =
      (.error (.keyError "firefox"), []) :=
  ensureSingleBrowser_unknown_variant_keyError "firefox" ["com.android.chrome"] []
    true (by decide) (by decide) (by decide)

end AndroidGoStories

namespace AndroidGoStories

/-- C9: `EnsureSingleBrowser` never logs an uninstall of the desired
browser's own package; every logged uninstall targets a known variant's
package that was enabled in the initial pre-install query and differs from
the desired package; and an enabled chrome-family package in the final
re-query that is no known variant's package forces an AssertionFailure. -/
theorem ensureSingleBrowser_uninstall_scope (browser_name : String)
    (b : BrowserClass) (avail1 avail2 : List String) (force_install : Bool)
    (hb : lookupBrowser browser_name = .ok b) :
    (DeviceAction.uninstall b.packageName ∉
      (EnsureSingleBrowser avail1 avail2 browser_name force_install).2) ∧
    (∀ p, DeviceAction.uninstall p ∈
        (EnsureSingleBrowser avail1 avail2 browser_name force_install).2 →
      (∃ c ∈ BROWSERS, c.2.packageName = p) ∧ p ∈ avail1 ∧ p ≠ b.packageName) ∧
    (∀ p ∈ avail2, (∀ c ∈ BROWSERS, c.2.packageName ≠ p) →
      ∃ msg, (EnsureSingleBrowser avail1 avail2 browser_name force_install).1 =
        .error (.assertionFailure msg)) := by
  refine ⟨?_, ?_, ?_⟩
  · intro h
    have := ((uninstall_mem_acts browser_name b avail1 avail2 force_install
      b.packageName hb).mp h).2.2
    exact this rfl
  · intro p hp
    exact (uninstall_mem_acts browser_name b avail1 avail2 force_install p hb).mp hp
  · intro p hpmem hnotvariant
    rw [ensure_result browser_name b avail1 avail2 force_install hb]
    have hbmem : (browser_name, b) ∈ BROWSERS := by
      rcases lookupBrowser_cases browser_name b hb with ⟨h1, h2⟩ | ⟨h1, h2⟩ | ⟨h1, h2⟩ <;>
        subst h1 <;> subst h2 <;> simp [BROWSERS]
    have hpneb : p ≠ b.packageName := fun he => hnotvariant (browser_name, b) hbmem (he ▸ rfl)
    by_cases hm : b.packageName ∈ avail2
    · have hc : avail2.contains b.packageName = true := by simpa using hm
      rw [if_pos hc]
      have herase : p ∈ avail2.erase b.packageName :=
        (List.mem_erase_of_ne hpneb).mpr hpmem
      have hne : avail2.erase b.packageName ≠ [] := by
        intro hnil; rw [hnil] at herase; exact absurd herase (List.not_mem_nil p)
      rw [if_neg hne]; exact ⟨_, rfl⟩
    · have hc : ¬(avail2.contains b.packageName = true) := by simpa using hm
      rw [if_neg hc]; exact ⟨_, rfl⟩

/-- Witness for C9: with an unknown chrome-family package enabled in the
re-query, the call fails with an AssertionFailure. -/
theorem ensureSingleBrowser_uninstall_scope_witness :
    ∃ msg, (EnsureSingleBrowser [] ["com.other.chrome"] "android-chrome" false).1 =
      .error (.assertionFailure msg) :=
  (ensureSingleBrowser_uninstall_scope "android-chrome" ChromeApp []
      ["com.other.chrome"] false rfl).2.2 "com.other.chrome" (by simp)
    (by decide)

end AndroidGoStories
